import Mathlib

/-
Shallow embedding of the `bucket` RSS ingestion / deduplication / scheduling core
(`bucket/rss_manager.py`, `bucket/rss_scheduler.py`, with the data model of
`bucket/models.py` and the store of `bucket/database.py`), together with theorems
settling the behavioural claims about it.

Modelling conventions:
- timestamps are `Int` seconds (the Python code compares `datetime` values via
  `total_seconds()` against the literal 86400, and builds offsets from
  `timedelta(minutes=m)` = `m * 60` seconds);
- a Python `Optional[T]` field is `Option T`; Python truthiness of a string is
  "nonempty", of a list "nonempty", of a `datetime` "always true";
- the persistent store is a record state (`DBState`); the SQL queries of
  `database.py` are filters/sorts over its article and feed lists;
- `float` similarity `inter/union >= threshold` is modelled exactly by integer
  cross-multiplication with the threshold kept as the fraction thNum/thDen = 4/5
  (all quantities are tiny integers, so the float comparison is exact);
- Python's stable `list.sort(key=..., reverse=True)` is modelled by a stable
  insertion sort with the reversed key order (stable sorting is unique, so any
  stable sort computes the same list as Timsort).
-/

namespace Bucket

/-- `ArticleStatus` enum of `models.py`. -/
inductive ArticleStatus where
  | pending
  | fetched
  | summarized
  | delivered
  | failed
deriving Repr, DecidableEq

/-- `ArticlePriority` enum of `models.py`; the `value` strings are
"low" / "medium" / "high" / "urgent". -/
inductive ArticlePriority where
  | low
  | medium
  | high
  | urgent
deriving Repr, DecidableEq

/-- The `Article` model of `models.py` (the fields the ingestion, dedup, briefing
and cleanup code reads). `publishedDate`, `createdAt` are seconds. -/
structure Article where
  id : Option Nat := none
  url : String
  title : String := ""
  content : Option String := none
  author : Option String := none
  publishedDate : Option Int := none
  status : ArticleStatus := .pending
  priority : ArticlePriority := .medium
  tags : List String := []
  source : Option String := none
  wordCount : Option Nat := none
  readingTime : Option Nat := none
  createdAt : Int := 0
deriving Repr, DecidableEq

/-- The `Feed` model of `models.py`. -/
structure Feed where
  id : Option Nat := none
  name : String
  url : String := ""
  description : Option String := none
  lastFetched : Option Int := none
  isActive : Bool := true
  tags : List String := []
  updatedAt : Int := 0
deriving Repr, DecidableEq

/-! ### Python string helpers

`_titles_similar` normalizes with `' '.join(title.lower().split())`.
`str.split()` with no argument splits on whitespace runs and drops empty pieces.
These helpers are written by structural recursion on the character list so that
closed instances evaluate inside the kernel. -/

/-- One step of splitting on whitespace (folded from the right over the
characters): a whitespace character closes the current chunk. -/
def pyChunkStep (c : Char) (acc : List (List Char)) : List (List Char) :=
  if c.isWhitespace then [] :: acc
  else
    match acc with
    | [] => [[c]]
    | w :: ws => (c :: w) :: ws

/-- Python `s.split()`: whitespace-separated words, empty pieces dropped. -/
def pyWords (s : String) : List String :=
  ((s.data.foldr pyChunkStep []).filter (· ≠ [])).map (fun cs => String.mk cs)

/-- Python `s.lower()` (ASCII case mapping, which covers every title the
claims exercise). -/
def lowerStr (s : String) : String :=
  String.mk (s.data.map Char.toLower)

/-- Python `' '.join(ws)`. -/
def joinSpace : List String → String
  | [] => ""
  | [w] => w
  | w :: ws => w ++ " " ++ joinSpace ws

/-- `' '.join(title.lower().split())`: the title normalization of
`_titles_similar` (rss_manager.py lines 305-307). -/
def pyNormalize (t : String) : String :=
  joinSpace (pyWords (lowerStr t))

/-- Does `xs` start with `needle`? -/
def leadsChars : List Char → List Char → Bool
  | [], _ => true
  | _ :: _, [] => false
  | x :: xs, y :: ys => x == y && leadsChars xs ys

/-- Does `needle` occur as a contiguous run inside the second list? -/
def hasSubChars (needle : List Char) : List Char → Bool
  | [] => needle.isEmpty
  | y :: ys => leadsChars needle (y :: ys) || hasSubChars needle ys

/-- Python's substring test `s in t`. -/
def isSubstrOf (s t : String) : Bool :=
  hasSubChars s.data t.data

/-- Lexicographic character-list order (the binary text collation `ORDER BY
name ASC` sorts by). -/
def charListLe : List Char → List Char → Bool
  | [], _ => true
  | _ :: _, [] => false
  | x :: xs, y :: ys => if x = y then charListLe xs ys else decide (x < y)

/-- `set(norm.split())`: the whitespace-tokenized word set of a normalized
title. -/
def wordSetOf (norm : String) : Finset String :=
  (pyWords norm).toFinset

/-- `RSSManager._titles_similar` (rss_manager.py lines 300-329). The float
threshold `0.8` is carried as the exact fraction `thNum / thDen = 4 / 5`; the
test `similarity >= threshold` with `similarity = inter / union` (and 0 when
`union = 0`) becomes `inter * thDen >= thNum * union` (resp. `0 >= thNum`). -/
def titlesSimilar (title1 title2 : String) (thNum : Nat := 4) (thDen : Nat := 5) : Bool :=
  if title1 = "" ∨ title2 = "" then false
  else
    let norm1 := pyNormalize title1
    let norm2 := pyNormalize title2
    if norm1 = norm2 then true
    else if isSubstrOf norm1 norm2 ∨ isSubstrOf norm2 norm1 then true
    else
      let words1 := wordSetOf norm1
      let words2 := wordSetOf norm2
      if words1.card = 0 ∨ words2.card = 0 then false
      else
        let inter := (words1 ∩ words2).card
        let union := (words1 ∪ words2).card
        if 0 < union then decide (inter * thDen ≥ thNum * union)
        else decide (thNum = 0)

/-- `RSSManager._get_content_hash` (rss_manager.py lines 331-342): `None` for
empty content, otherwise a hash of the first 1000 characters. The hash function
itself (`hashlib.md5(...).hexdigest()`) is an opaque external primitive and is
passed in as `md5`. -/
def getContentHash (md5 : String → String) (content : String) : Option String :=
  if content = "" then none else some (md5 (content.take 1000))

/-- Python truthiness of the optional `content` field: the text when present
and nonempty. -/
def contentText (a : Article) : Option String :=
  match a.content with
  | some c => if c = "" then none else some c
  | none => none

/-- The date-proximity conjunct of the title check (rss_manager.py lines
278-279): both published dates present and less than 24 hours (86400 s)
apart. -/
def publishedClose (a b : Option Int) : Bool :=
  match a, b with
  | some x, some y => (x - y).natAbs < 86400
  | _, _ => false

/-! ### Dedup engine -/

/-- The store reads `_is_duplicate_article` performs; each read may fail (the
`try` body re-raises store errors into the surrounding handler). -/
structure FallibleStore where
  getArticleByUrl : String → Except String (Option Article)
  getArticlesBySource : String → Except String (List Article)

/-- The title-similarity sweep of `_is_duplicate_article` (rss_manager.py lines
275-280): some same-source article with a truthy title that is similar to the
candidate's and published within 24 hours of it. -/
def titleSweep (article : Article) (recentArticles : List Article) : Bool :=
  recentArticles.any fun ex =>
    ex.title ≠ "" && titlesSimilar article.title ex.title &&
      publishedClose article.publishedDate ex.publishedDate

/-- The content-hash sweep of `_is_duplicate_article` (rss_manager.py lines
287-291): some same-source article with truthy content whose hash equals `h`. -/
def hashSweep (md5 : String → String) (h : String) (recentArticles : List Article) : Bool :=
  recentArticles.any fun ex =>
    match contentText ex with
    | some c2 => getContentHash md5 c2 == some h
    | none => false

/-- The `try` body of `RSSManager._is_duplicate_article` (rss_manager.py lines
264-293): URL match, then title similarity with date proximity over same-source
articles, then content-hash comparison; the first hit returns `true`, and a
store error anywhere propagates out (explicit `.error` threading mirrors
exception propagation). -/
def isDuplicateBody (md5 : String → String) (store : FallibleStore)
    (article : Article) (feed : Feed) : Except String Bool :=
  match store.getArticleByUrl article.url with
  | .error e => .error e
  | .ok existingByUrl =>
    if existingByUrl.isSome then .ok true
    else
      let titleStep : Except String Bool :=
        if article.title ≠ "" then
          match store.getArticlesBySource feed.name with
          | .error e => .error e
          | .ok recentArticles => .ok (titleSweep article recentArticles)
        else .ok false
      match titleStep with
      | .error e => .error e
      | .ok titleHit =>
        if titleHit then .ok true
        else
          let hashStep : Except String Bool :=
            match contentText article with
            | some c =>
              match getContentHash md5 c with
              | some h =>
                match store.getArticlesBySource feed.name with
                | .error e => .error e
                | .ok recentArticles => .ok (hashSweep md5 h recentArticles)
              | none => .ok false
            | none => .ok false
          match hashStep with
          | .error e => .error e
          | .ok contentHit => if contentHit then .ok true else .ok false

/-- `RSSManager._is_duplicate_article`: the `except` handler (rss_manager.py
lines 295-298) turns any error raised while evaluating into `True`
(fail closed). -/
def isDuplicateArticle (md5 : String → String) (store : FallibleStore)
    (article : Article) (feed : Feed) : Bool :=
  match isDuplicateBody md5 store article feed with
  | .ok b => b
  | .error _ => true

/-! ### Store state (`database.py`)

The SQLite store is a record of article rows, feed rows and the next article
row id. Python's stable `list.sort` and the deterministic `ORDER BY` of the
queries are modelled with a stable insertion sort. -/

/-- Insert `a` after every element strictly before it under `le`; among
elements comparing equal the earlier input stays first (stability). -/
def stableInsert (le : α → α → Bool) (a : α) : List α → List α
  | [] => [a]
  | b :: bs => if le b a && !(le a b) then b :: stableInsert le a bs else a :: b :: bs

/-- Stable sort by the Boolean preorder `le` (insertion sort; the stable
sorted sequence is unique, so this agrees with Python's Timsort). -/
def stableSort (le : α → α → Bool) : List α → List α
  | [] => []
  | x :: xs => stableInsert le x (stableSort le xs)

/-- Key order for `ORDER BY created_at DESC` / `sort(key=created_at, reverse=True)`. -/
def createdDescLe (a b : Article) : Bool :=
  decide (b.createdAt ≤ a.createdAt)

/-- The persistent store: article rows, feed rows, next article row id. -/
structure DBState where
  articles : List Article := []
  feeds : List Feed := []
  nextArticleId : Nat := 1
deriving Repr, DecidableEq

/-- `Database.get_article_by_url` (database.py lines 377-390): the row with
that exact URL, if any. -/
def DBState.articleByUrl (db : DBState) (url : String) : Option Article :=
  db.articles.find? fun a => a.url == url

/-- `Database.get_articles_by_source` (database.py lines 359-375): rows whose
`source` equals the feed name, newest first. -/
def DBState.articlesBySource (db : DBState) (source : String) : List Article :=
  stableSort createdDescLe (db.articles.filter fun a => a.source == some source)

/-- `Database.get_articles_since` (database.py lines 341-357): rows created at
or after the cutoff, newest first, truncated to `limit`. -/
def DBState.articlesSince (db : DBState) (cutoff : Int) (limit : Nat) : List Article :=
  (stableSort createdDescLe (db.articles.filter fun a => decide (cutoff ≤ a.createdAt))).take limit

/-- `Database.get_feeds(active_only=True)` (database.py lines 292-318): active
feeds ordered by name ascending; called by `RSSManager.get_active_feeds`. -/
def DBState.activeFeeds (db : DBState) : List Feed :=
  stableSort (fun a b => charListLe a.name.data b.name.data) (db.feeds.filter (·.isActive))

/-- `Database.save_article` (database.py lines 207-219): insert a new row and
return its assigned id. -/
def DBState.saveArticle (db : DBState) (a : Article) : DBState × Nat :=
  let newId := db.nextArticleId
  ({ db with
      articles := db.articles ++ [{ a with id := some newId }]
      nextArticleId := newId + 1 },
   newId)

/-- `Database.update_feed(feed_id, last_fetched=now)` (database.py lines
430-455): set `last_fetched` (and `updated_at`) on the feed row with that id;
a `None` id matches no row. -/
def DBState.updateFeedLastFetched (db : DBState) (feedId : Option Nat) (now : Int) : DBState :=
  { db with
      feeds := db.feeds.map fun f =>
        if feedId.isSome && f.id == feedId then
          { f with lastFetched := some now, updatedAt := now }
        else f }

/-- The dedup engine's view of a concrete store state: reads that always
succeed. -/
def DBState.store (db : DBState) : FallibleStore where
  getArticleByUrl := fun u => .ok (db.articleByUrl u)
  getArticlesBySource := fun s => .ok (db.articlesBySource s)

/-! ### Feed ingestor (`RSSManager.fetch_feed_articles` / `fetch_all_feeds`) -/

/-- Lines 92-95 of rss_manager.py: stamp the candidate with the feed's name and
tags, status `FETCHED`, priority `MEDIUM` (an empty tag list yields `[]`, the
same list). -/
def stampForFeed (a : Article) (feed : Feed) : Article :=
  { a with
      source := some feed.name
      tags := feed.tags
      status := .fetched
      priority := .medium }

/-- The per-entry loop of `fetch_feed_articles` (rss_manager.py lines 84-103):
skip candidates the dedup engine flags, otherwise stamp, persist, record the
assigned id and collect. -/
def ingestLoop (md5 : String → String) (feed : Feed) :
    DBState → List Article → DBState × List Article
  | db, [] => (db, [])
  | db, a :: rest =>
    if isDuplicateArticle md5 db.store a feed then
      ingestLoop md5 feed db rest
    else
      let stamped := stampForFeed a feed
      let (db', newId) := db.saveArticle stamped
      let (dbFinal, savedRest) := ingestLoop md5 feed db' rest
      (dbFinal, { stamped with id := some newId } :: savedRest)

/-- `RSSManager.fetch_feed_articles` (rss_manager.py lines 77-112). `fetched`
is the Source Fetcher outcome for `feed.url`; a fetch failure is caught and
yields an empty result with the store untouched. On success the first
`maxArticles` entries run through the dedup-and-persist loop and the feed's
`last_fetched` is set to `now`. -/
def fetchFeedArticles (md5 : String → String) (db : DBState) (feed : Feed)
    (fetched : Except String (List Article)) (maxArticles : Nat) (now : Int) :
    DBState × List Article :=
  match fetched with
  | .error _ => (db, [])
  | .ok articles =>
    let (db', saved) := ingestLoop md5 feed db (articles.take maxArticles)
    (db'.updateFeedLastFetched feed.id now, saved)

/-- The per-feed loop of `fetch_all_feeds` (rss_manager.py lines 119-133): the
coroutines are awaited one after another in feed order, each feed's saved
articles keyed by its name (a failure inside a feed's run is already captured
by `fetch_feed_articles` as an empty list). -/
def fetchAllLoop (md5 : String → String) (fetchOutcome : Feed → Except String (List Article))
    (maxPerFeed : Nat) (now : Int) :
    DBState → List Feed → DBState × List (String × List Article)
  | db, [] => (db, [])
  | db, feed :: rest =>
    let (db', articles) := fetchFeedArticles md5 db feed (fetchOutcome feed) maxPerFeed now
    let (dbFinal, restResults) := fetchAllLoop md5 fetchOutcome maxPerFeed now db' rest
    (dbFinal, (feed.name, articles) :: restResults)

/-- `RSSManager.fetch_all_feeds` (rss_manager.py lines 114-134): run the
ingestor over every active feed and return `feed_name -> articles`. -/
def fetchAllFeeds (md5 : String → String) (db : DBState)
    (fetchOutcome : Feed → Except String (List Article)) (maxPerFeed : Nat) (now : Int) :
    DBState × List (String × List Article) :=
  fetchAllLoop md5 fetchOutcome maxPerFeed now db db.activeFeeds

/-! ### Interval scheduler (`rss_scheduler.py`) -/

/-- The `ScheduleConfig` dataclass (rss_scheduler.py lines 21-31); times in
seconds. -/
structure ScheduleConfig where
  feedId : Option Nat := none
  intervalMinutes : Nat := 60
  maxArticles : Nat := 10
  enabled : Bool := true
  lastRun : Option Int := none
  nextRun : Option Int := none
  callbackUrl : Option String := none
deriving Repr, DecidableEq

/-- `RSSScheduler._calculate_next_run` (rss_scheduler.py lines 92-97):
`last_run + timedelta(minutes=interval)` when a last run is recorded, else
`now + timedelta(minutes=interval)`. -/
def calculateNextRun (config : ScheduleConfig) (now : Int) : Int :=
  match config.lastRun with
  | some lastRun => lastRun + config.intervalMinutes * 60
  | none => now + config.intervalMinutes * 60

/-- `RSSScheduler.add_schedule` (rss_scheduler.py lines 49-54), restricted to
the stored config: registering a config stamps its `next_run`. -/
def addSchedule (config : ScheduleConfig) (now : Int) : ScheduleConfig :=
  { config with nextRun := some (calculateNextRun config now) }

/-- The schedule-timing update a successful `RSSScheduler._execute_schedule`
performs (rss_scheduler.py lines 174-176): `last_run = utcnow()` (the wall
clock at execution, `now`), then `next_run = _calculate_next_run(config)` on
the updated config. -/
def executeScheduleTiming (config : ScheduleConfig) (now : Int) : ScheduleConfig :=
  let ran := { config with lastRun := some now }
  { ran with nextRun := some (calculateNextRun ran now) }

/-! ### Briefing assembler (`RSSManager.generate_rss_briefing`) -/

/-- The `RSSBriefingConfig` dataclass (rss_manager.py lines 21-29). -/
structure RSSBriefingConfig where
  maxArticlesPerFeed : Nat := 5
  maxTotalArticles : Nat := 25
  daysBack : Nat := 7
  includeSummaries : Bool := true
  sortByPriority : Bool := true
  groupByFeed : Bool := true
deriving Repr, DecidableEq

/-- The `priority_order` dict of rss_manager.py line 168 (`.get` default 4 is
unreachable for the enum). -/
def priorityOrder : ArticlePriority → Nat
  | .urgent => 0
  | .high => 1
  | .medium => 2
  | .low => 3

/-- The order `sort(key=lambda a: (priority_order, created_at), reverse=True)`
arranges articles in: `a` may precede `b` iff `b`'s key is lexicographically at
most `a`'s (stable descending key sort). -/
def prioritySortLe (a b : Article) : Bool :=
  decide (priorityOrder b.priority < priorityOrder a.priority) ||
    (priorityOrder b.priority == priorityOrder a.priority &&
      decide (b.createdAt ≤ a.createdAt))

/-- `article.source or "Unknown"`: the grouping key (a missing or empty source
reads "Unknown"). -/
def sourceKey (a : Article) : String :=
  match a.source with
  | some s => if s = "" then "Unknown" else s
  | none => "Unknown"

/-- Python truthiness of `article.source` (rss_manager.py line 146). -/
def sourceTruthy (a : Article) : Bool :=
  match a.source with
  | some s => s ≠ ""
  | none => false

/-- Append `a` under `key` in an insertion-ordered dict of lists
(`articles_by_feed[feed_name].append(article)` with first-seen key order). -/
def groupAppend (key : String) (a : Article) :
    List (String × List Article) → List (String × List Article)
  | [] => [(key, [a])]
  | (k, items) :: rest =>
    if k == key then (k, items ++ [a]) :: rest
    else (k, items) :: groupAppend key a rest

/-- Group articles by `sourceKey`, keys in first-appearance order (the Python
dict built on rss_manager.py lines 153-158 and 365-370). -/
def groupBySource (articles : List Article) : List (String × List Article) :=
  articles.foldl (fun acc a => groupAppend (sourceKey a) a acc) []

/-- The `stats` dict of `generate_rss_briefing` (rss_manager.py lines
176-184). -/
structure BriefingStats where
  totalArticles : Nat
  totalFeeds : Nat
  activeFeedsCount : Nat
  totalReadingTime : Nat
  totalWords : Nat
  generatedAt : Int
deriving Repr, DecidableEq

/-- The briefing payload returned by `generate_rss_briefing`. -/
structure BriefingResult where
  articlesByFeed : List (String × List Article)
  feeds : List Feed
  stats : BriefingStats
  config : RSSBriefingConfig
deriving Repr, DecidableEq

/-- `RSSManager.generate_rss_briefing` (rss_manager.py lines 136-191): recent
articles (last `days_back` days, at most `max_total_articles`), filtered to a
truthy source, grouped by feed (each list capped at `max_articles_per_feed`)
or a single capped "All Feeds" list, then each list stably sorted by
`(priority_order, created_at)` with `reverse=True` when `sort_by_priority`. -/
def generateRssBriefing (db : DBState) (config : RSSBriefingConfig) (now : Int) :
    BriefingResult :=
  let cutoff := now - (config.daysBack : Int) * 86400
  let recentArticles := db.articlesSince cutoff config.maxTotalArticles
  let rssArticles := recentArticles.filter sourceTruthy
  let feeds := db.activeFeeds
  let grouped :=
    if config.groupByFeed then
      (groupBySource rssArticles).map fun kv => (kv.1, kv.2.take config.maxArticlesPerFeed)
    else
      [("All Feeds", rssArticles.take config.maxTotalArticles)]
  let sorted :=
    if config.sortByPriority then
      grouped.map fun kv => (kv.1, stableSort prioritySortLe kv.2)
    else grouped
  { articlesByFeed := sorted
    feeds := feeds
    stats :=
      { totalArticles := rssArticles.length
        totalFeeds := feeds.length
        activeFeedsCount := (feeds.filter (·.isActive)).length
        totalReadingTime := rssArticles.foldl (fun s a => s + a.readingTime.getD 0) 0
        totalWords := rssArticles.foldl (fun s a => s + a.wordCount.getD 0) 0
        generatedAt := now }
    config := config }

/-! ### Duplicate cleanup (`RSSManager.cleanup_duplicates`) -/

/-- The result dict of `cleanup_duplicates` (rss_manager.py lines 353-360 and
430-437). -/
structure CleanupReport where
  success : Bool
  totalArticles : Nat := 0
  duplicatesFound : Nat := 0
  duplicatesRemoved : Nat := 0
  sourcesChecked : Nat := 0
deriving Repr, DecidableEq

/-- `RSSManager._remove_article_from_db` (rss_manager.py lines 450-478): the
body's first statement reads the module-level name `SQLALCHEMY_AVAILABLE`,
which `rss_manager.py` never imports or defines, so every call raises
`NameError`, which the function's own `except` handler catches, logging and
returning `False` with the store untouched. -/
def removeArticleFromDb (db : DBState) (_articleId : Option Nat) : DBState × Bool :=
  (db, false)

/-- `seen_titles[title_key] = article`: dict assignment, keeping the original
position of an existing key. -/
def upsertAssoc (key : String) (a : Article) :
    List (String × Article) → List (String × Article)
  | [] => [(key, a)]
  | (k, v) :: rest =>
    if k == key then (k, a) :: rest
    else (k, v) :: upsertAssoc key a rest

/-- The per-source scan state of `cleanup_duplicates` (rss_manager.py lines
383-385) together with the store being mutated and the running counters. -/
structure ScanState where
  db : DBState
  seenUrls : List String := []
  seenTitles : List (String × Article) := []
  seenHashes : List (String × Article) := []
  found : Nat := 0
  removed : Nat := 0

/-- One iteration of the duplicate scan (rss_manager.py lines 387-428): URL
membership, then title similarity with date proximity against every remembered
title, then content-hash membership; a flagged article bumps the found counter
and is handed to `_remove_article_from_db` (whose success bumps the removed
counter). -/
def cleanupStep (md5 : String → String) (st : ScanState) (article : Article) : ScanState :=
  let urlDup := st.seenUrls.contains article.url
  let st1 := if urlDup then st else { st with seenUrls := st.seenUrls ++ [article.url] }
  let titleKey := pyNormalize article.title
  let titleDup :=
    !urlDup && article.title ≠ "" &&
      st1.seenTitles.any fun kv =>
        titlesSimilar titleKey kv.1 &&
          publishedClose article.publishedDate kv.2.publishedDate
  let st2 :=
    if !urlDup && article.title ≠ "" && !titleDup then
      { st1 with seenTitles := upsertAssoc titleKey article st1.seenTitles }
    else st1
  let hashDup :=
    !urlDup && !titleDup &&
      match contentText article with
      | some c =>
        match getContentHash md5 c with
        | some h => st2.seenHashes.any fun kv => kv.1 == h
        | none => false
      | none => false
  let st3 :=
    if !urlDup && !titleDup && !hashDup then
      match contentText article with
      | some c =>
        match getContentHash md5 c with
        | some h => { st2 with seenHashes := upsertAssoc h article st2.seenHashes }
        | none => st2
      | none => st2
    else st2
  if urlDup || titleDup || hashDup then
    let (db', ok) := removeArticleFromDb st3.db article.id
    { st3 with db := db', found := st3.found + 1, removed := st3.removed + (if ok then 1 else 0) }
  else st3

/-- The scan of one source group (rss_manager.py lines 376-428): sort the
group newest-first, then fold the duplicate scan over it. -/
def cleanupSource (md5 : String → String) (db : DBState) (articles : List Article) :
    DBState × Nat × Nat :=
  let sorted := stableSort createdDescLe articles
  let final := sorted.foldl (cleanupStep md5) { db := db }
  (final.db, final.found, final.removed)

/-- Fold the per-source scan over every source group, accumulating the found
and removed counters. -/
def cleanupSources (md5 : String → String) :
    DBState → List (String × List Article) → DBState × Nat × Nat
  | db, [] => (db, 0, 0)
  | db, (_, items) :: rest =>
    let (db1, found1, removed1) := cleanupSource md5 db items
    let (db2, foundRest, removedRest) := cleanupSources md5 db1 rest
    (db2, found1 + foundRest, removed1 + removedRest)

/-- `RSSManager.cleanup_duplicates` (rss_manager.py lines 344-448): load up to
1000 articles from the last `days_back` days, group them by source, scan each
group for URL / title / content-hash duplicates and report the counts. -/
def cleanupDuplicates (md5 : String → String) (db : DBState) (daysBack : Nat) (now : Int) :
    DBState × CleanupReport :=
  let cutoff := now - (daysBack : Int) * 86400
  let recentArticles := db.articlesSince cutoff 1000
  if recentArticles.isEmpty then
    (db, { success := true })
  else
    let bySource := groupBySource recentArticles
    let (db', found, removed) := cleanupSources md5 db bySource
    (db',
     { success := true
       totalArticles := recentArticles.length
       duplicatesFound := found
       duplicatesRemoved := removed
       sourcesChecked := bySource.length })

/-! ### Derived notions used by the theorems -/

/-- No stored article has this candidate's URL (the first dedup signal cannot
fire). -/
def urlFresh (db : DBState) (a : Article) : Bool :=
  (db.articleByUrl a.url).isNone

/-- Stamp consecutive row ids starting at `n` onto a list of articles: the
shape of what the ingest loop persists and returns. -/
def assignIds (n : Nat) : List Article → List Article
  | [] => []
  | a :: rest => { a with id := some n } :: assignIds (n + 1) rest

/-! ### Concrete fixtures for counterexamples and witnesses -/

/-- Stand-in for the opaque `hashlib.md5` argument in concrete evaluations;
every fixture article carries `content = none`, so the hash function is never
applied to them. -/
def md5Model : String → String := fun s => s

/-- A store whose reads fail (the "store unavailable" situation of the
fail-closed policy). -/
def failStore : FallibleStore where
  getArticleByUrl := fun _ => .error "store unavailable"
  getArticlesBySource := fun _ => .error "store unavailable"

/-- A plain active feed. -/
def feedA : Feed :=
  { id := some 1, name := "Feed A", url := "https://example.com/feed" }

/-- Candidate article for the fail-closed witness. -/
def c2Candidate : Article :=
  { url := "https://example.com/c2", title := "Any title" }

/-- Stored article bearing the unpunctuated headline. -/
def c3Stored : Article :=
  { id := some 1
    url := "https://example.com/markets-1"
    title := "Breaking Market Hits Record High"
    publishedDate := some 0
    source := some "Feed A"
    createdAt := 0 }

/-- Store holding `c3Stored` under `feedA`. -/
def c3Db : DBState :=
  { articles := [c3Stored], feeds := [feedA], nextArticleId := 2 }

/-- Candidate bearing the punctuated headline, published 1 hour after the
stored article. -/
def c3Candidate1h : Article :=
  { url := "https://example.com/markets-2"
    title := "Breaking: Market Hits Record High"
    publishedDate := some 3600 }

/-- The same candidate published 30 days after the stored article. -/
def c3Candidate30d : Article :=
  { url := "https://example.com/markets-2"
    title := "Breaking: Market Hits Record High"
    publishedDate := some 2592000 }

/-- Stored recurring headline with a published date. -/
def c7Stored : Article :=
  { id := some 1
    url := "https://example.com/roundup-1"
    title := "Weekly Roundup"
    publishedDate := some 0
    source := some "Feed A"
    createdAt := 0 }

/-- Store holding `c7Stored` under `feedA`. -/
def c7Db : DBState :=
  { articles := [c7Stored], feeds := [feedA], nextArticleId := 2 }

/-- Candidate with an identical title but no published date. -/
def c7Candidate : Article :=
  { url := "https://example.com/roundup-2"
    title := "Weekly Roundup"
    publishedDate := none }

/-- A low-priority article, the newer of the pair. -/
def c4Low : Article :=
  { id := some 1
    url := "https://example.com/low"
    title := "Minor update"
    source := some "Feed A"
    priority := .low
    createdAt := 200 }

/-- An urgent article, the older of the pair. -/
def c4Urgent : Article :=
  { id := some 2
    url := "https://example.com/urgent"
    title := "Critical alert"
    source := some "Feed A"
    priority := .urgent
    createdAt := 100 }

/-- Store holding the two prioritized articles. -/
def c4Db : DBState :=
  { articles := [c4Low, c4Urgent], feeds := [feedA], nextArticleId := 3 }

/-- Oldest copy of the triplicated URL (t1 = 100). -/
def c8Oldest : Article :=
  { id := some 1
    url := "https://example.com/dup"
    title := "Alpha report"
    publishedDate := some 100
    source := some "Feed A"
    createdAt := 100 }

/-- Middle copy of the triplicated URL (t2 = 200). -/
def c8Middle : Article :=
  { id := some 2
    url := "https://example.com/dup"
    title := "Beta memo"
    publishedDate := some 200
    source := some "Feed A"
    createdAt := 200 }

/-- Newest copy of the triplicated URL (t3 = 300). -/
def c8Newest : Article :=
  { id := some 3
    url := "https://example.com/dup"
    title := "Gamma note"
    publishedDate := some 300
    source := some "Feed A"
    createdAt := 300 }

/-- Store holding the three same-URL articles. -/
def c8Db : DBState :=
  { articles := [c8Oldest, c8Middle, c8Newest], feeds := [feedA], nextArticleId := 4 }

/-- Two articles already stored for `feedA` (their URLs collide with two of
the incoming entries). -/
def c5Db : DBState :=
  { articles :=
      [{ id := some 1, url := "https://example.com/s1", title := "Stored one"
         source := some "Feed A", createdAt := 10 },
       { id := some 2, url := "https://example.com/s2", title := "Stored two"
         source := some "Feed A", createdAt := 20 }]
    feeds := [feedA]
    nextArticleId := 3 }

/-- Five raw entries: the first two URLs are already stored, the last three
are fresh; no entry carries a published date or content. -/
def c5Entries : List Article :=
  [{ url := "https://example.com/s1", title := "Entry one" },
   { url := "https://example.com/s2", title := "Entry two" },
   { url := "https://example.com/n3", title := "Entry three" },
   { url := "https://example.com/n4", title := "Entry four" },
   { url := "https://example.com/n5", title := "Entry five" }]

/-- Three active feeds for the isolation witness. -/
def c9FeedOne : Feed :=
  { id := some 1, name := "Feed One", url := "https://example.com/one" }

/-- The feed whose fetch blows up. -/
def c9FeedTwo : Feed :=
  { id := some 2, name := "Feed Two", url := "https://example.com/two" }

/-- The third feed. -/
def c9FeedThree : Feed :=
  { id := some 3, name := "Feed Three", url := "https://example.com/three" }

/-- Store holding the three active feeds and no articles. -/
def c9Db : DBState :=
  { articles := [], feeds := [c9FeedOne, c9FeedTwo, c9FeedThree], nextArticleId := 1 }

/-- Fetch outcomes: feed two's fetch raises, the others yield one fresh entry
each. -/
def c9Fetch : Feed → Except String (List Article) := fun f =>
  if f.name = "Feed Two" then .error "connection reset"
  else .ok [{ url := "https://example.com/item-" ++ f.name, title := "Fresh item" }]

/-! ## Helper lemmas -/

theorem publishedClose_none_left (b : Option Int) : publishedClose none b = false := by
  cases b <;> rfl

theorem publishedClose_none_right (a : Option Int) : publishedClose a none = false := by
  cases a <;> rfl

theorem contentText_eq_none {a : Article} (h : a.content = none) : contentText a = none := by
  simp [contentText, h]

/-- For a candidate with no content and no published date, only the URL signal
of the dedup engine can fire: the decision over a concrete store is exactly
"some stored row has this URL". -/
theorem isDuplicate_eq_url_present (md5 : String → String) (db : DBState)
    (a : Article) (feed : Feed) (hc : a.content = none) (hp : a.publishedDate = none) :
    isDuplicateArticle md5 db.store a feed = (db.articleByUrl a.url).isSome := by
  have hsweep : titleSweep a (db.articlesBySource feed.name) = false := by
    simp [titleSweep, hp, publishedClose_none_left]
  cases hfind : db.articleByUrl a.url with
  | some ex => simp [isDuplicateArticle, isDuplicateBody, DBState.store, hfind]
  | none =>
    simp [isDuplicateArticle, isDuplicateBody, DBState.store, hfind, hsweep,
      contentText_eq_none hc]

/-! ## Claims -/

/-- C1: a schedule configuration with `interval_minutes = 60` created at time
`T` gets `next_run = T + 60min`; when the scheduler executes it at that due
time, `last_run` is stamped with the execution time `T + 60min` and `next_run`
is recomputed from `last_run` to `T + 120min`. -/
theorem schedule_interval_anchored (c : ScheduleConfig) (T : Int)
    (hInterval : c.intervalMinutes = 60) (hFresh : c.lastRun = none) :
    (addSchedule c T).nextRun = some (T + 3600) ∧
    (executeScheduleTiming (addSchedule c T) (T + 3600)).lastRun = some (T + 3600) ∧
    (executeScheduleTiming (addSchedule c T) (T + 3600)).nextRun = some (T + 7200) := by
  refine ⟨?_, rfl, ?_⟩
  · simp [addSchedule, calculateNextRun, hFresh, hInterval]
  · simp [executeScheduleTiming, addSchedule, calculateNextRun, hFresh, hInterval]
    ring

theorem schedule_interval_anchored_witness :
    (({} : ScheduleConfig).intervalMinutes = 60 ∧ ({} : ScheduleConfig).lastRun = none) ∧
    (addSchedule {} 0).nextRun = some (0 + 3600) ∧
    (executeScheduleTiming (addSchedule {} 0) (0 + 3600)).lastRun = some (0 + 3600) ∧
    (executeScheduleTiming (addSchedule {} 0) (0 + 3600)).nextRun = some (0 + 7200) :=
  ⟨⟨rfl, rfl⟩, schedule_interval_anchored {} 0 rfl rfl⟩

/-- C2: when a store read fails while the duplicate check is being evaluated
(the URL lookup, or the same-source query reached during the title pass), the
engine fails closed and reports the candidate as a duplicate instead of
raising or answering `false`. -/
theorem dedup_error_fails_closed (md5 : String → String) (store : FallibleStore)
    (article : Article) (feed : Feed) (e : String)
    (h : store.getArticleByUrl article.url = .error e ∨
      (store.getArticleByUrl article.url = .ok none ∧ article.title ≠ "" ∧
        store.getArticlesBySource feed.name = .error e)) :
    isDuplicateArticle md5 store article feed = true := by
  rcases h with h1 | ⟨h1, ht, h2⟩
  · simp [isDuplicateArticle, isDuplicateBody, h1]
  · simp [isDuplicateArticle, isDuplicateBody, h1, ht, h2]

theorem dedup_error_fails_closed_witness :
    failStore.getArticleByUrl c2Candidate.url = .error "store unavailable" ∧
    isDuplicateArticle md5Model failStore c2Candidate feedA = true :=
  ⟨rfl, dedup_error_fails_closed md5Model failStore c2Candidate feedA
    "store unavailable" (Or.inl rfl)⟩

/-- C3 counterexample: the candidate titled "Breaking: Market Hits Record
High", published 1 hour after a stored same-source article titled "Breaking
Market Hits Record High", is NOT classified as a duplicate — the normalization
keeps punctuation, so the token `breaking:` differs from `breaking`, the
normalized titles are neither equal nor substrings, and the Jaccard similarity
is 4/6 < 0.8. -/
theorem punctuated_pair_not_duplicate_at_1h :
    c3Candidate1h.publishedDate = some 3600 ∧ c3Stored.publishedDate = some 0 ∧
    isDuplicateArticle md5Model c3Db.store c3Candidate1h feedA = false := by
  decide

/-- C3 amended: for that title pair the similarity check itself fails, so the
candidate is not a duplicate at either published-date gap — 1 hour or 30
days. -/
theorem punctuated_pair_never_similar :
    titlesSimilar "Breaking: Market Hits Record High"
      "Breaking Market Hits Record High" = false ∧
    isDuplicateArticle md5Model c3Db.store c3Candidate1h feedA = false ∧
    isDuplicateArticle md5Model c3Db.store c3Candidate30d feedA = false := by
  decide

/-- C4: with `sort_by_priority` set, `reverse=True` on the key
`(priority_order, created_at)` with `urgent -> 0, ..., low -> 3` sorts the
LARGEST rank value first: the Low-priority article is emitted before the
Urgent one, contradicting "Urgent articles come first". -/
theorem priority_sort_emits_low_before_urgent :
    c4Low.priority = ArticlePriority.low ∧
    c4Urgent.priority = ArticlePriority.urgent ∧
    (generateRssBriefing c4Db {} 1000).articlesByFeed = [("Feed A", [c4Low, c4Urgent])] := by
  decide

/-- C7 counterexample: a candidate whose title equals a stored same-source
article's title but whose own `published_date` is absent is NOT classified as
a duplicate — the date-proximity conjunct requires both dates to be present,
so a missing date disables the title signal instead of waiving the proximity
requirement. -/
theorem absent_date_disables_title_match :
    titlesSimilar c7Candidate.title c7Stored.title = true ∧
    c7Candidate.publishedDate = none ∧
    isDuplicateArticle md5Model c7Db.store c7Candidate feedA = false := by
  decide

/-- C7 amended: the < 24h proximity requirement applies only when both
published dates are present, and when either is absent the title-similarity
match does not fire at all: a candidate with a fresh URL, no content, and a
missing published date on its side or on every stored article's side is never
classified a duplicate, however similar the titles. -/
theorem title_match_requires_both_published_dates (md5 : String → String) (db : DBState)
    (a : Article) (feed : Feed)
    (hurl : db.articleByUrl a.url = none)
    (hc : a.content = none)
    (hdates : ∀ ex ∈ db.articlesBySource feed.name,
      a.publishedDate = none ∨ ex.publishedDate = none) :
    isDuplicateArticle md5 db.store a feed = false := by
  have hsweep : titleSweep a (db.articlesBySource feed.name) = false := by
    simp only [titleSweep, List.any_eq_false]
    intro ex hex
    rcases hdates ex hex with h | h <;>
      simp [h, publishedClose_none_left, publishedClose_none_right]
  simp [isDuplicateArticle, isDuplicateBody, DBState.store, hurl, hsweep,
    contentText_eq_none hc]

theorem title_match_requires_both_published_dates_witness :
    (c7Db.articleByUrl c7Candidate.url = none ∧ c7Candidate.content = none ∧
      (∀ ex ∈ c7Db.articlesBySource feedA.name,
        c7Candidate.publishedDate = none ∨ ex.publishedDate = none)) ∧
    isDuplicateArticle md5Model c7Db.store c7Candidate feedA = false :=
  ⟨⟨by decide, rfl, by decide⟩,
   title_match_requires_both_published_dates md5Model c7Db c7Candidate feedA
     (by decide) rfl (by decide)⟩

/-- C8: on three stored same-source articles sharing one URL with creation
times 100 < 200 < 300, the cleanup scan does flag the two older copies
(`duplicates_found = 2`) but removes neither (`duplicates_removed = 0`) and
leaves the store — all three rows — untouched: `_remove_article_from_db`
always fails on the undefined name `SQLALCHEMY_AVAILABLE`. -/
theorem cleanup_flags_but_cannot_remove :
    cleanupDuplicates md5Model c8Db 30 400 =
      (c8Db,
       { success := true, totalArticles := 3, duplicatesFound := 2,
         duplicatesRemoved := 0, sourcesChecked := 1 }) := by
  decide

/-- Every branch of the similarity test is order-independent, at any
threshold. -/
theorem titlesSimilar_comm_general (t1 t2 : String) (n d : Nat) :
    titlesSimilar t1 t2 n d = titlesSimilar t2 t1 n d := by
  simp only [titlesSimilar]
  by_cases h0 : t1 = "" ∨ t2 = ""
  · rw [if_pos h0, if_pos (Or.symm h0)]
  · have h0' : ¬(t2 = "" ∨ t1 = "") := fun h => h0 (Or.symm h)
    rw [if_neg h0, if_neg h0']
    by_cases h1 : pyNormalize t1 = pyNormalize t2
    · rw [if_pos h1, if_pos h1.symm]
    · have h1' : ¬pyNormalize t2 = pyNormalize t1 := fun h => h1 h.symm
      rw [if_neg h1, if_neg h1']
      by_cases h2 : isSubstrOf (pyNormalize t1) (pyNormalize t2) = true ∨
          isSubstrOf (pyNormalize t2) (pyNormalize t1) = true
      · rw [if_pos h2, if_pos (Or.symm h2)]
      · have h2' : ¬(isSubstrOf (pyNormalize t2) (pyNormalize t1) = true ∨
            isSubstrOf (pyNormalize t1) (pyNormalize t2) = true) :=
          fun h => h2 (Or.symm h)
        rw [if_neg h2, if_neg h2']
        by_cases h3 : (wordSetOf (pyNormalize t1)).card = 0 ∨
            (wordSetOf (pyNormalize t2)).card = 0
        · rw [if_pos h3, if_pos (Or.symm h3)]
        · have h3' : ¬((wordSetOf (pyNormalize t2)).card = 0 ∨
              (wordSetOf (pyNormalize t1)).card = 0) :=
            fun h => h3 (Or.symm h)
          rw [if_neg h3, if_neg h3']
          rw [Finset.inter_comm, Finset.union_comm]

/-- C10: the title-similarity predicate is symmetric — the
normalization-equality, mutual-substring and Jaccard checks are all
order-independent. -/
theorem titles_similar_symmetric (a b : String) :
    titlesSimilar a b = titlesSimilar b a :=
  titlesSimilar_comm_general a b 4 5

/-- C6: the similarity test uses `>=` semantics at threshold 0.8: word sets
meeting at 4 of 5 distinct words (Jaccard exactly 4/5) are similar, while word
sets meeting at 3 of 5 (Jaccard 3/5) — with the normalized titles neither
equal nor mutual substrings — are not. -/
theorem jaccard_uses_ge_threshold :
    (∀ t1 t2 : String,
        (wordSetOf (pyNormalize t1) ∩ wordSetOf (pyNormalize t2)).card = 4 →
        (wordSetOf (pyNormalize t1) ∪ wordSetOf (pyNormalize t2)).card = 5 →
        titlesSimilar t1 t2 = true) ∧
    (∀ t1 t2 : String,
        (wordSetOf (pyNormalize t1) ∩ wordSetOf (pyNormalize t2)).card = 3 →
        (wordSetOf (pyNormalize t1) ∪ wordSetOf (pyNormalize t2)).card = 5 →
        pyNormalize t1 ≠ pyNormalize t2 →
        isSubstrOf (pyNormalize t1) (pyNormalize t2) = false →
        isSubstrOf (pyNormalize t2) (pyNormalize t1) = false →
        titlesSimilar t1 t2 = false) := by
  have hempty : wordSetOf (pyNormalize "") = ∅ := by decide
  constructor
  · intro t1 t2 hI hU
    simp only [titlesSimilar]
    by_cases h0 : t1 = "" ∨ t2 = ""
    · exfalso
      rcases h0 with h | h <;> rw [h] at hI <;> rw [hempty] at hI <;> simp at hI
    · rw [if_neg h0]
      by_cases h1 : pyNormalize t1 = pyNormalize t2
      · rw [if_pos h1]
      · rw [if_neg h1]
        by_cases h2 : isSubstrOf (pyNormalize t1) (pyNormalize t2) = true ∨
            isSubstrOf (pyNormalize t2) (pyNormalize t1) = true
        · rw [if_pos h2]
        · rw [if_neg h2]
          have hle1 : (wordSetOf (pyNormalize t1) ∩ wordSetOf (pyNormalize t2)).card ≤
              (wordSetOf (pyNormalize t1)).card :=
            Finset.card_le_card Finset.inter_subset_left
          have hle2 : (wordSetOf (pyNormalize t1) ∩ wordSetOf (pyNormalize t2)).card ≤
              (wordSetOf (pyNormalize t2)).card :=
            Finset.card_le_card Finset.inter_subset_right
          have hc1 : (wordSetOf (pyNormalize t1)).card ≠ 0 := by omega
          have hc2 : (wordSetOf (pyNormalize t2)).card ≠ 0 := by omega
          rw [if_neg (not_or.mpr ⟨hc1, hc2⟩), hI, hU]
          norm_num
  · intro t1 t2 hI hU h1 hs1 hs2
    simp only [titlesSimilar]
    have h0 : ¬(t1 = "" ∨ t2 = "") := by
      rintro (h | h) <;> rw [h] at hI <;> rw [hempty] at hI <;> simp at hI
    rw [if_neg h0, if_neg h1]
    have h2 : ¬(isSubstrOf (pyNormalize t1) (pyNormalize t2) = true ∨
        isSubstrOf (pyNormalize t2) (pyNormalize t1) = true) := by
      rw [hs1, hs2]; simp
    rw [if_neg h2]
    have hle1 : (wordSetOf (pyNormalize t1) ∩ wordSetOf (pyNormalize t2)).card ≤
        (wordSetOf (pyNormalize t1)).card :=
      Finset.card_le_card Finset.inter_subset_left
    have hle2 : (wordSetOf (pyNormalize t1) ∩ wordSetOf (pyNormalize t2)).card ≤
        (wordSetOf (pyNormalize t2)).card :=
      Finset.card_le_card Finset.inter_subset_right
    have hc1 : (wordSetOf (pyNormalize t1)).card ≠ 0 := by omega
    have hc2 : (wordSetOf (pyNormalize t2)).card ≠ 0 := by omega
    rw [if_neg (not_or.mpr ⟨hc1, hc2⟩), hI, hU]
    norm_num

theorem assignIds_length (n : Nat) (l : List Article) :
    (assignIds n l).length = l.length := by
  induction l generalizing n with
  | nil => rfl
  | cons a rest ih => simp [assignIds, ih]

theorem assignIds_id_isSome (n : Nat) (l : List Article) :
    ∀ a ∈ assignIds n l, a.id.isSome := by
  induction l generalizing n with
  | nil => intro a ha; simp [assignIds] at ha
  | cons x rest ih =>
    intro a ha
    rcases List.mem_cons.mp ha with rfl | ha
    · rfl
    · exact ih (n + 1) a ha

theorem length_filter_add_length_filter_not (p : α → Bool) (l : List α) :
    (l.filter p).length + (l.filter (fun x => !(p x))).length = l.length := by
  induction l with
  | nil => rfl
  | cons x xs ih => cases h : p x <;> simp [List.filter_cons, h] <;> omega

theorem find?_append_nomatch {l : List Article} {x : Article} {u : String}
    (h : x.url ≠ u) :
    (l ++ [x]).find? (fun a => a.url == u) = l.find? (fun a => a.url == u) := by
  have hx : (x.url == u) = false := by simp [h]
  induction l with
  | nil => simp [List.find?, hx]
  | cons y ys ih =>
    cases hy : (y.url == u) <;> simp [List.find?, hy, ih]

/-- Saving a row whose URL differs from the candidate's leaves the
URL-freshness verdict unchanged. -/
theorem urlFresh_after_append {db : DBState} {x : Article} {m : Nat} {b : Article}
    (h : x.url ≠ b.url) :
    urlFresh { db with articles := db.articles ++ [x], nextArticleId := m } b =
      urlFresh db b := by
  unfold urlFresh DBState.articleByUrl
  rw [find?_append_nomatch h]

/-- Exact shape of the dedup-and-persist loop on candidates that carry no
content and no published date with pairwise distinct URLs: it keeps precisely
the URL-fresh entries, stamps them for the feed, appends them to the store
with consecutive ids, and returns that same list. -/
theorem ingestLoop_spec (md5 : String → String) (feed : Feed) (entries : List Article) :
    ∀ db : DBState,
      (∀ a ∈ entries, a.content = none ∧ a.publishedDate = none) →
      (entries.map Article.url).Nodup →
      ingestLoop md5 feed db entries =
        ({ db with
            articles := db.articles ++
              assignIds db.nextArticleId
                ((entries.filter (urlFresh db)).map (stampForFeed · feed))
            nextArticleId := db.nextArticleId +
              ((entries.filter (urlFresh db)).map (stampForFeed · feed)).length },
         assignIds db.nextArticleId
           ((entries.filter (urlFresh db)).map (stampForFeed · feed))) := by
  induction entries with
  | nil =>
    intro db _ _
    simp [ingestLoop, assignIds]
  | cons a rest ih =>
    intro db hf hnd
    have hfa := hf a (List.mem_cons_self a rest)
    have hdup : isDuplicateArticle md5 db.store a feed = (db.articleByUrl a.url).isSome :=
      isDuplicate_eq_url_present md5 db a feed hfa.1 hfa.2
    have hnd' : (rest.map Article.url).Nodup := (List.nodup_cons.mp (by simpa using hnd)).2
    have hanotin : a.url ∉ rest.map Article.url := (List.nodup_cons.mp (by simpa using hnd)).1
    have hf' : ∀ b ∈ rest, b.content = none ∧ b.publishedDate = none :=
      fun b hb => hf b (List.mem_cons_of_mem a hb)
    by_cases hfr : (db.articleByUrl a.url).isSome
    · have hfrB : urlFresh db a = false := by
        unfold urlFresh
        cases h2 : db.articleByUrl a.url with
        | none => rw [h2] at hfr; simp at hfr
        | some _ => rfl
      have hstep : ingestLoop md5 feed db (a :: rest) = ingestLoop md5 feed db rest := by
        simp [ingestLoop, hdup, hfr]
      rw [hstep, List.filter_cons_of_neg (by simp [hfrB]), ih db hf' hnd']
    · have hfrB : urlFresh db a = true := by
        unfold urlFresh
        cases h2 : db.articleByUrl a.url with
        | none => rfl
        | some _ => rw [h2] at hfr; simp at hfr
      have hstep : ingestLoop md5 feed db (a :: rest) =
          ((ingestLoop md5 feed
              { db with
                  articles := db.articles ++ [{ stampForFeed a feed with id := some db.nextArticleId }]
                  nextArticleId := db.nextArticleId + 1 } rest).1,
           { stampForFeed a feed with id := some db.nextArticleId } ::
             (ingestLoop md5 feed
               { db with
                   articles := db.articles ++ [{ stampForFeed a feed with id := some db.nextArticleId }]
                   nextArticleId := db.nextArticleId + 1 } rest).2) := by
        simp [ingestLoop, hdup, hfr, DBState.saveArticle]
      have hfilter : ∀ b ∈ rest,
          urlFresh { db with
              articles := db.articles ++ [{ stampForFeed a feed with id := some db.nextArticleId }]
              nextArticleId := db.nextArticleId + 1 } b = urlFresh db b := by
        intro b hb
        refine urlFresh_after_append ?_
        intro hurl
        exact hanotin (hurl ▸ List.mem_map_of_mem Article.url hb)
      rw [hstep]
      rw [ih _ hf' hnd']
      rw [List.filter_congr hfilter]
      simp only [Prod.mk.injEq, DBState.mk.injEq, List.filter_cons, hfrB, if_pos,
        List.map_cons, assignIds, List.append_assoc, List.singleton_append,
        List.length_cons]
      refine ⟨⟨trivial, trivial, ?_⟩, trivial⟩
      omega

/-- C5: feeding five raw entries of which exactly two bear URLs already in
the store — and no other dedup signal can fire (no content, no published
dates, pairwise distinct URLs) — `fetch_feed_articles` with `max_articles = 5`
returns exactly the three URL-fresh entries, stamped for the feed, persisted,
with assigned ids, and sets the feed's `last_fetched` to the call time. -/
theorem ingest_five_entries_two_known (md5 : String → String) (db : DBState)
    (feed : Feed) (entries : List Article) (now : Int)
    (hlen : entries.length = 5)
    (hfields : ∀ a ∈ entries, a.content = none ∧ a.publishedDate = none)
    (hnd : (entries.map Article.url).Nodup)
    (hdup2 : (entries.filter (fun a => !(urlFresh db a))).length = 2)
    (hfeed : feed ∈ db.feeds) (hfid : feed.id.isSome) :
    (fetchFeedArticles md5 db feed (.ok entries) 5 now).2 =
      assignIds db.nextArticleId
        ((entries.filter (urlFresh db)).map (stampForFeed · feed)) ∧
    (fetchFeedArticles md5 db feed (.ok entries) 5 now).2.length = 3 ∧
    (∀ a ∈ (fetchFeedArticles md5 db feed (.ok entries) 5 now).2,
      a.id.isSome ∧ a ∈ (fetchFeedArticles md5 db feed (.ok entries) 5 now).1.articles) ∧
    (∃ f ∈ (fetchFeedArticles md5 db feed (.ok entries) 5 now).1.feeds,
      f.id = feed.id ∧ f.lastFetched = some now) := by
  have htake : entries.take 5 = entries := by
    rw [← hlen]; exact List.take_length entries
  have hspec := ingestLoop_spec md5 feed entries db hfields hnd
  have hres : fetchFeedArticles md5 db feed (.ok entries) 5 now =
      (DBState.updateFeedLastFetched
        { db with
            articles := db.articles ++
              assignIds db.nextArticleId
                ((entries.filter (urlFresh db)).map (stampForFeed · feed))
            nextArticleId := db.nextArticleId +
              ((entries.filter (urlFresh db)).map (stampForFeed · feed)).length }
        feed.id now,
       assignIds db.nextArticleId
         ((entries.filter (urlFresh db)).map (stampForFeed · feed))) := by
    simp [fetchFeedArticles, htake, hspec]
  have hcount : ((entries.filter (urlFresh db)).map (stampForFeed · feed)).length = 3 := by
    have := length_filter_add_length_filter_not (urlFresh db) entries
    simp only [List.length_map]
    omega
  refine ⟨?_, ?_, ?_, ?_⟩
  · rw [hres]
  · rw [hres, assignIds_length, hcount]
  · intro a ha
    rw [hres] at ha
    refine ⟨assignIds_id_isSome _ _ a ha, ?_⟩
    rw [hres]
    simp only [DBState.updateFeedLastFetched]
    exact List.mem_append_right _ ha
  · rw [hres]
    have hcond : (feed.id.isSome && (feed.id == feed.id)) = true := by
      simp [hfid]
    simp only [DBState.updateFeedLastFetched]
    refine ⟨{ feed with lastFetched := some now, updatedAt := now }, ?_, rfl, rfl⟩
    have hmap := List.mem_map_of_mem
      (fun f => if feed.id.isSome && (f.id == feed.id) then
        { f with lastFetched := some now, updatedAt := now } else f) hfeed
    simpa [hcond, hfid] using hmap

theorem ingest_five_entries_two_known_witness :
    (c5Entries.length = 5 ∧
      (∀ a ∈ c5Entries, a.content = none ∧ a.publishedDate = none) ∧
      (c5Entries.map Article.url).Nodup ∧
      (c5Entries.filter (fun a => !(urlFresh c5Db a))).length = 2 ∧
      feedA ∈ c5Db.feeds ∧ feedA.id.isSome) ∧
    ((fetchFeedArticles md5Model c5Db feedA (.ok c5Entries) 5 50).2 =
        assignIds c5Db.nextArticleId
          ((c5Entries.filter (urlFresh c5Db)).map (stampForFeed · feedA)) ∧
      (fetchFeedArticles md5Model c5Db feedA (.ok c5Entries) 5 50).2.length = 3 ∧
      (∀ a ∈ (fetchFeedArticles md5Model c5Db feedA (.ok c5Entries) 5 50).2,
        a.id.isSome ∧
          a ∈ (fetchFeedArticles md5Model c5Db feedA (.ok c5Entries) 5 50).1.articles) ∧
      (∃ f ∈ (fetchFeedArticles md5Model c5Db feedA (.ok c5Entries) 5 50).1.feeds,
        f.id = feedA.id ∧ f.lastFetched = some 50)) :=
  ⟨⟨by decide, by decide, by decide, by decide, by decide, by decide⟩,
   ingest_five_entries_two_known md5Model c5Db feedA c5Entries 50
     (by decide) (by decide) (by decide) (by decide) (by decide) (by decide)⟩

theorem jaccard_uses_ge_threshold_witness :
    ((wordSetOf (pyNormalize "alpha bravo charlie delta echo") ∩
        wordSetOf (pyNormalize "delta charlie bravo alpha")).card = 4 ∧
      (wordSetOf (pyNormalize "alpha bravo charlie delta echo") ∪
        wordSetOf (pyNormalize "delta charlie bravo alpha")).card = 5 ∧
      titlesSimilar "alpha bravo charlie delta echo" "delta charlie bravo alpha" = true) ∧
    ((wordSetOf (pyNormalize "alpha bravo charlie delta echo") ∩
        wordSetOf (pyNormalize "charlie bravo alpha")).card = 3 ∧
      (wordSetOf (pyNormalize "alpha bravo charlie delta echo") ∪
        wordSetOf (pyNormalize "charlie bravo alpha")).card = 5 ∧
      titlesSimilar "alpha bravo charlie delta echo" "charlie bravo alpha" = false) :=
  ⟨⟨by decide, by decide,
    jaccard_uses_ge_threshold.1 "alpha bravo charlie delta echo"
      "delta charlie bravo alpha" (by decide) (by decide)⟩,
   ⟨by decide, by decide,
    jaccard_uses_ge_threshold.2 "alpha bravo charlie delta echo"
      "charlie bravo alpha" (by decide) (by decide) (by decide) (by decide) (by decide)⟩⟩

/-- The dedup engine only reads the article rows: two store states with the
same rows answer every dedup query identically. -/
theorem store_congr {db1 db2 : DBState} (h : db1.articles = db2.articles) :
    db1.store = db2.store := by
  simp only [DBState.store, DBState.articleByUrl, DBState.articlesBySource, h]

/-- The ingest loop reads and writes only the article rows and the id counter:
its saved list and those two state components do not depend on the feed
rows. -/
theorem ingestLoop_agnostic (md5 : String → String) (feed : Feed) (entries : List Article) :
    ∀ db1 db2 : DBState, db1.articles = db2.articles →
      db1.nextArticleId = db2.nextArticleId →
      (ingestLoop md5 feed db1 entries).2 = (ingestLoop md5 feed db2 entries).2 ∧
      (ingestLoop md5 feed db1 entries).1.articles = (ingestLoop md5 feed db2 entries).1.articles ∧
      (ingestLoop md5 feed db1 entries).1.nextArticleId =
        (ingestLoop md5 feed db2 entries).1.nextArticleId := by
  induction entries with
  | nil =>
    intro db1 db2 h1 h2
    exact ⟨rfl, h1, h2⟩
  | cons a rest ih =>
    intro db1 db2 h1 h2
    have hst : db1.store = db2.store := store_congr h1
    by_cases hdup : isDuplicateArticle md5 db2.store a feed = true
    · have hrec := ih db1 db2 h1 h2
      refine ⟨?_, ?_, ?_⟩ <;>
        simp [ingestLoop, hst, hdup, hrec.1, hrec.2.1, hrec.2.2]
    · have hrec := ih
        { articles := db2.articles ++ [{ stampForFeed a feed with id := some db2.nextArticleId }],
          feeds := db1.feeds, nextArticleId := db2.nextArticleId + 1 }
        { articles := db2.articles ++ [{ stampForFeed a feed with id := some db2.nextArticleId }],
          feeds := db2.feeds, nextArticleId := db2.nextArticleId + 1 }
        rfl rfl
      refine ⟨?_, ?_, ?_⟩ <;>
        simp [ingestLoop, hst, hdup, DBState.saveArticle, h1, h2, hrec.1, hrec.2.1, hrec.2.2]

/-- Lifting `ingestLoop_agnostic` through `fetch_feed_articles` (the
`last_fetched` write touches only the feed rows). -/
theorem fetchFeedArticles_agnostic (md5 : String → String) (feed : Feed)
    (fetched : Except String (List Article)) (maxA : Nat) (now : Int)
    (db1 db2 : DBState) (h1 : db1.articles = db2.articles)
    (h2 : db1.nextArticleId = db2.nextArticleId) :
    (fetchFeedArticles md5 db1 feed fetched maxA now).2 =
      (fetchFeedArticles md5 db2 feed fetched maxA now).2 ∧
    (fetchFeedArticles md5 db1 feed fetched maxA now).1.articles =
      (fetchFeedArticles md5 db2 feed fetched maxA now).1.articles ∧
    (fetchFeedArticles md5 db1 feed fetched maxA now).1.nextArticleId =
      (fetchFeedArticles md5 db2 feed fetched maxA now).1.nextArticleId := by
  cases fetched with
  | error e => exact ⟨rfl, h1, h2⟩
  | ok entries =>
    have := ingestLoop_agnostic md5 feed (entries.take maxA) db1 db2 h1 h2
    simpa [fetchFeedArticles, DBState.updateFeedLastFetched] using this

/-- A feed whose fetch fails behaves, for every other feed's result, exactly
like a feed whose fetch succeeds with no entries: the per-feed results of the
whole run agree. -/
theorem fetchAllLoop_error_equiv (md5 : String → String)
    (fo : Feed → Except String (List Article)) (maxPer : Nat) (now : Int)
    (bad : Feed) (e : String) (hbad : fo bad = .error e) (feeds : List Feed) :
    ∀ db1 db2 : DBState, db1.articles = db2.articles →
      db1.nextArticleId = db2.nextArticleId →
      (fetchAllLoop md5 fo maxPer now db1 feeds).2 =
      (fetchAllLoop md5 (fun f => if f = bad then .ok [] else fo f) maxPer now db2 feeds).2 := by
  induction feeds with
  | nil => intro db1 db2 _ _; rfl
  | cons g rest ih =>
    intro db1 db2 h1 h2
    by_cases hg : g = bad
    · subst hg
      have hL : fetchFeedArticles md5 db1 g (fo g) maxPer now = (db1, []) := by
        rw [hbad]; rfl
      have hR : fetchFeedArticles md5 db2 g (.ok []) maxPer now =
          (db2.updateFeedLastFetched g.id now, []) := by
        simp [fetchFeedArticles, ingestLoop]
      simp only [fetchAllLoop, hL, hR, if_pos rfl]
      have hrest := ih db1 (db2.updateFeedLastFetched g.id now)
        (by simpa [DBState.updateFeedLastFetched] using h1)
        (by simpa [DBState.updateFeedLastFetched] using h2)
      simp [hR, hrest]
    · have hparts := fetchFeedArticles_agnostic md5 g (fo g) maxPer now db1 db2 h1 h2
      have hfo : (fun f => if f = bad then Except.ok ([] : List Article) else fo f) g = fo g := by
        simp [hg]
      simp only [fetchAllLoop, hfo]
      have hrest := ih (fetchFeedArticles md5 db1 g (fo g) maxPer now).1
        (fetchFeedArticles md5 db2 g (fo g) maxPer now).1 hparts.2.1 hparts.2.2
      simp [hrest, hparts.1]

/-- Every feed in the processed list ends up with an entry under its name in
the results mapping. -/
theorem fetchAllLoop_has_key (md5 : String → String)
    (fo : Feed → Except String (List Article)) (maxPer : Nat) (now : Int)
    (feeds : List Feed) :
    ∀ db : DBState, ∀ f ∈ feeds,
      (((fetchAllLoop md5 fo maxPer now db feeds).2).lookup f.name).isSome := by
  induction feeds with
  | nil => intro db f hf; simp at hf
  | cons g rest ih =>
    intro db f hf
    simp only [fetchAllLoop]
    cases hb : (f.name == g.name) with
    | true => simp [List.lookup, hb]
    | false =>
      rcases List.mem_cons.mp hf with rfl | hf'
      · simp at hb
      · simp only [List.lookup, hb]
        exact ih _ f hf'

/-- When feed names are distinct, the feed whose fetch fails is mapped to the
empty list. -/
theorem fetchAllLoop_error_entry (md5 : String → String)
    (fo : Feed → Except String (List Article)) (maxPer : Nat) (now : Int)
    (bad : Feed) (e : String) (hbad : fo bad = .error e) (feeds : List Feed) :
    ∀ db : DBState, (feeds.map Feed.name).Nodup → bad ∈ feeds →
      ((fetchAllLoop md5 fo maxPer now db feeds).2).lookup bad.name = some [] := by
  induction feeds with
  | nil => intro db _ hmem; simp at hmem
  | cons g rest ih =>
    intro db hnd hmem
    have hnd' : (rest.map Feed.name).Nodup := (List.nodup_cons.mp (by simpa using hnd)).2
    have hgnotin : g.name ∉ rest.map Feed.name := (List.nodup_cons.mp (by simpa using hnd)).1
    by_cases hg : g = bad
    · subst hg
      have hL : fetchFeedArticles md5 db g (fo g) maxPer now = (db, []) := by
        rw [hbad]; rfl
      simp only [fetchAllLoop]
      rw [hL]
      simp [List.lookup]
    · have hmem' : bad ∈ rest := by
        rcases List.mem_cons.mp hmem with h | h
        · exact absurd h.symm hg
        · exact h
      have hne : (bad.name == g.name) = false := by
        have : bad.name ≠ g.name := by
          intro hEq
          exact hgnotin (hEq ▸ List.mem_map_of_mem Feed.name hmem')
        simp [this]
      simp only [fetchAllLoop, List.lookup, hne]
      exact ih _ hnd' hmem'

/-- C9: `fetch_all_feeds` returns an entry for every active feed; a feed whose
fetch raises is mapped to the empty list, and the mapping is the same one that
a run in which that feed instead fetched successfully-but-empty would produce —
the failure neither escapes the aggregate call nor disturbs any other feed's
results. -/
theorem ingest_all_isolates_feed_failures (md5 : String → String) (db : DBState)
    (fo : Feed → Except String (List Article)) (maxPer : Nat) (now : Int)
    (bad : Feed) (e : String)
    (hnames : (db.activeFeeds.map Feed.name).Nodup)
    (hmem : bad ∈ db.activeFeeds)
    (hbad : fo bad = .error e) :
    (∀ f ∈ db.activeFeeds,
      (((fetchAllFeeds md5 db fo maxPer now).2).lookup f.name).isSome) ∧
    ((fetchAllFeeds md5 db fo maxPer now).2).lookup bad.name = some [] ∧
    (fetchAllFeeds md5 db fo maxPer now).2 =
      (fetchAllFeeds md5 db (fun f => if f = bad then .ok [] else fo f) maxPer now).2 := by
  refine ⟨?_, ?_, ?_⟩
  · intro f hf
    exact fetchAllLoop_has_key md5 fo maxPer now db.activeFeeds db f hf
  · exact fetchAllLoop_error_entry md5 fo maxPer now bad e hbad db.activeFeeds db hnames hmem
  · exact fetchAllLoop_error_equiv md5 fo maxPer now bad e hbad db.activeFeeds db db rfl rfl

theorem ingest_all_isolates_feed_failures_witness :
    ((c9Db.activeFeeds.map Feed.name).Nodup ∧
      c9FeedTwo ∈ c9Db.activeFeeds ∧
      c9Fetch c9FeedTwo = Except.error "connection reset") ∧
    ((∀ f ∈ c9Db.activeFeeds,
        (((fetchAllFeeds md5Model c9Db c9Fetch 10 50).2).lookup f.name).isSome) ∧
      ((fetchAllFeeds md5Model c9Db c9Fetch 10 50).2).lookup c9FeedTwo.name = some [] ∧
      (fetchAllFeeds md5Model c9Db c9Fetch 10 50).2 =
        (fetchAllFeeds md5Model c9Db
          (fun f => if f = c9FeedTwo then .ok [] else c9Fetch f) 10 50).2) :=
  ⟨⟨by decide, by decide, rfl⟩,
   ingest_all_isolates_feed_failures md5Model c9Db c9Fetch 10 50 c9FeedTwo
     "connection reset" (by decide) (by decide) rfl⟩

end Bucket

